import Mathlib

/-!
Shallow embedding of the page-controller script of the civic-issue-reporting
web app (src/script.js). The script wires four independent components:
a mobile navigation drawer (lines 7-40), a deferred map initializer
(lines 43-58) with its scheduling policy (lines 61-76), a load-timing
reporter (lines 79-101), and a click redirect for the issue-report button
(lines 106-110). Each definition below mirrors one piece of the source;
theorems settle the spec claims about them.
-/

namespace Script

/-! ## Navigation drawer (src/script.js lines 7-40) -/

/-- Click targets distinguished by the drawer code: the menu trigger button,
the close button, an anchor matching the selector ".mobile-nav a, .mobile-auth a"
(one of several such links, indexed), the drawer element itself (a click on
its background region), or any other element on the page. -/
inductive ClickTarget
  | menuToggleEl
  | closeBtnEl
  | navLinkEl (i : Nat)
  | sidebarEl
  | otherEl
deriving DecidableEq, Repr

/-- Mutable UI state touched by the drawer handlers: the "active" class on
the menu trigger (line 15), the "active" class on the drawer (line 16), and
the overflow style property of the document body (lines 17-19, 25). The
browser default for the overflow style is the empty string. -/
structure DrawerState where
  menuToggleActive : Bool
  sidebarActive : Bool
  bodyOverflow : String
deriving DecidableEq, Repr

/-- The page-initial drawer state: no "active" classes, body overflow unset. -/
def initState : DrawerState :=
  { menuToggleActive := false, sidebarActive := false, bodyOverflow := "" }

/-- toggleMenu (lines 14-20): toggles both "active" classes, then sets the
body overflow from the new drawer class: "hidden" when active, "auto" otherwise. -/
def toggleMenu (s : DrawerState) : DrawerState :=
  let mt := !s.menuToggleActive
  let sb := !s.sidebarActive
  { menuToggleActive := mt
    sidebarActive := sb
    bodyOverflow := if sb then "hidden" else "auto" }

/-- closeMenu (lines 22-26): removes both "active" classes and sets the body
overflow to "auto" unconditionally. -/
def closeMenu (_s : DrawerState) : DrawerState :=
  { menuToggleActive := false, sidebarActive := false, bodyOverflow := "auto" }

/-- Whether e.target.closest(".mobile-nav a, .mobile-auth a") is non-null
(line 33): true exactly for the in-drawer navigation links. -/
def targetClosestNavLink : ClickTarget → Bool
  | .navLinkEl _ => true
  | _ => false

/-- The delegated click listener registered on the document root
(lines 32-39): closes the drawer when the target matches the nav-link
selector, and closes it when the target is the drawer element itself. -/
def delegatedClick (t : ClickTarget) (s : DrawerState) : DrawerState :=
  let s1 := if targetClosestNavLink t then closeMenu s else s
  if t = .sidebarEl then closeMenu s1 else s1

/-- Dispatch of one click event at target t through every listener the
script registers: the toggle listener on the menu trigger (line 28), the
close listener on the close button (line 29), and, after bubbling, the
delegated listener on the document root (lines 32-39). -/
def clickEvent (s : DrawerState) (t : ClickTarget) : DrawerState :=
  let s1 := if t = .menuToggleEl then toggleMenu s else s
  let s2 := if t = .closeBtnEl then closeMenu s1 else s1
  delegatedClick t s2

/-- Applying a sequence of click events in order. -/
def applyClicks (s : DrawerState) (ts : List ClickTarget) : DrawerState :=
  ts.foldl clickEvent s

/-- The body scroll-lock flag: the overflow style equals "hidden". -/
def scrollLocked (s : DrawerState) : Bool :=
  s.bodyOverflow = "hidden"

/-- The four drawer actions named by the spec: toggle via the menu trigger,
close via the close trigger, click on an in-drawer navigation link, click on
the drawer background. -/
def isDrawerAction : ClickTarget → Bool
  | .menuToggleEl => true
  | .closeBtnEl => true
  | .navLinkEl _ => true
  | .sidebarEl => true
  | .otherEl => false

theorem drawer_action_establishes_invariant (s : DrawerState) (t : ClickTarget)
    (h : isDrawerAction t = true) :
    scrollLocked (clickEvent s t) = (clickEvent s t).sidebarActive := by
  cases t <;> simp_all [isDrawerAction, clickEvent, delegatedClick,
    targetClosestNavLink, toggleMenu, closeMenu, scrollLocked]

/-- C1: for every sequence of drawer actions, after each action the body
scroll-lock flag is set if and only if the drawer is in the open state.
Stated for an arbitrary observable point: any prefix of the sequence ending
in an action, from any starting state. -/
theorem drawer_scroll_lock_iff_open (s : DrawerState) (ts : List ClickTarget)
    (t : ClickTarget) (_hts : ∀ a ∈ ts, isDrawerAction a = true)
    (ht : isDrawerAction t = true) :
    scrollLocked (applyClicks s (ts ++ [t]))
      = (applyClicks s (ts ++ [t])).sidebarActive := by
  have h1 : applyClicks s (ts ++ [t]) = clickEvent (applyClicks s ts) t := by
    simp [applyClicks, List.foldl_append]
  rw [h1]
  exact drawer_action_establishes_invariant _ _ ht

/-- Witness for C1: the invariant after the concrete sequence
toggle, toggle, close, click-outside, click-on-inner-link. -/
theorem drawer_scroll_lock_iff_open_witness :
    scrollLocked (applyClicks initState
        ([.menuToggleEl, .menuToggleEl, .closeBtnEl, .sidebarEl] ++ [.navLinkEl 0]))
      = (applyClicks initState
        ([.menuToggleEl, .menuToggleEl, .closeBtnEl, .sidebarEl] ++ [.navLinkEl 0])).sidebarActive :=
  drawer_scroll_lock_iff_open initState
    [.menuToggleEl, .menuToggleEl, .closeBtnEl, .sidebarEl] (.navLinkEl 0)
    (by decide) (by decide)

/-- The canonical closed drawer state: both "active" classes absent and the
scroll lock cleared, exactly as closeMenu leaves the page. -/
def closedState : DrawerState :=
  { menuToggleActive := false, sidebarActive := false, bodyOverflow := "auto" }

/-- C9: starting from the closed drawer state, activating toggle twice
returns the drawer and the scroll-lock flag to the closed state, both for
the bare toggleMenu handler and for a full click dispatch on the menu
trigger. -/
theorem toggle_twice_identity_on_closed :
    toggleMenu (toggleMenu closedState) = closedState
      ∧ clickEvent (clickEvent closedState .menuToggleEl) .menuToggleEl = closedState := by
  constructor <;> rfl

/-! ## Listener registration by initializeMenu (src/script.js lines 7-40) -/

/-- Elements on which initializeMenu registers click listeners. -/
inductive ListenerTarget
  | menuToggle
  | closeBtn
  | documentRoot
deriving DecidableEq, Repr

/-- The three handler functions the script can register. -/
inductive Handler
  | toggleMenuHandler
  | closeMenuHandler
  | delegatedHandler
deriving DecidableEq, Repr

/-- One click-listener registration: an addEventListener call on a target. -/
structure Listener where
  target : ListenerTarget
  handler : Handler
deriving DecidableEq, Repr

/-- Document environment seen by initializeMenu: which of the three looked-up
elements exist (lines 8-10), and how many in-drawer navigation links the
markup contains. The link count is part of the environment to make explicit
that registration never iterates over links. -/
structure MenuEnv where
  menuTogglePresent : Bool
  sidebarPresent : Bool
  closeBtnPresent : Bool
  navLinkCount : Nat
deriving DecidableEq, Repr

/-- A thrown JavaScript error. Calling addEventListener on the null result
of a failed getElementById raises a TypeError. -/
inductive JsError
  | typeError
deriving DecidableEq, Repr

/-- initializeMenu (lines 7-40) as a listener-registration semantics: it
returns the list of listeners attached, in program order, together with the
error aborting it, if any. The guard at line 12 checks only the menu trigger
and the drawer; the toggle listener is attached at line 28; line 29 then
dereferences closeBtn, raising a TypeError when that element is absent;
the delegated document listener is attached at lines 32-39. -/
def initializeMenu (env : MenuEnv) : List Listener × Option JsError :=
  if !env.menuTogglePresent || !env.sidebarPresent then ([], none)
  else if env.closeBtnPresent then
    ([⟨.menuToggle, .toggleMenuHandler⟩, ⟨.closeBtn, .closeMenuHandler⟩,
      ⟨.documentRoot, .delegatedHandler⟩], none)
  else
    ([⟨.menuToggle, .toggleMenuHandler⟩], some .typeError)

/-- A listener registration whose handler dismisses the drawer: the
dedicated close handler and the delegated handler do; the toggle handler is
not a dismissal source. -/
def isDismissalListener (l : Listener) : Bool :=
  match l.handler with
  | .toggleMenuHandler => false
  | .closeMenuHandler => true
  | .delegatedHandler => true

/-- A fully populated page: all three elements present, five in-drawer links. -/
def fullMenuEnv : MenuEnv :=
  { menuTogglePresent := true, sidebarPresent := true,
    closeBtnPresent := true, navLinkCount := 5 }

/-- Counterexample to C2: on a fully populated page the script registers TWO
dismissal listeners, not one, and the close-trigger dismissal is a dedicated
listener on the close button, not the delegated document-root listener; the
delegated handler alone does not react to a click on the close trigger
(here from an open drawer). -/
theorem not_all_dismissal_delegated :
    ((initializeMenu fullMenuEnv).1.filter isDismissalListener).length = 2
      ∧ (Listener.mk .closeBtn .closeMenuHandler) ∈ (initializeMenu fullMenuEnv).1
      ∧ delegatedClick .closeBtnEl (toggleMenu closedState) = toggleMenu closedState
      ∧ clickEvent (toggleMenu closedState) .closeBtnEl = closedState := by
  refine ⟨by decide, by decide, ?_, ?_⟩ <;> rfl

/-- C2 amended: the in-drawer link dismissal and the background dismissal
are handled by a single delegated listener on the document root, while the
dedicated close trigger has its own listener on the close element; the set
of listeners registered is independent of how many links the drawer
contains, so the dismissal-listener count is the constant two. -/
theorem dismissal_listener_structure (n m : Nat) :
    initializeMenu { fullMenuEnv with navLinkCount := n }
        = initializeMenu { fullMenuEnv with navLinkCount := m }
      ∧ ((initializeMenu { fullMenuEnv with navLinkCount := n }).1.filter
          (fun l => l.target = .documentRoot)).length = 1
      ∧ (Listener.mk .documentRoot .delegatedHandler)
          ∈ (initializeMenu { fullMenuEnv with navLinkCount := n }).1
      ∧ (Listener.mk .closeBtn .closeMenuHandler)
          ∈ (initializeMenu { fullMenuEnv with navLinkCount := n }).1
      ∧ ((initializeMenu { fullMenuEnv with navLinkCount := n }).1.filter
          isDismissalListener).length = 2
      ∧ delegatedClick (.navLinkEl n) (toggleMenu closedState) = closedState
      ∧ delegatedClick .sidebarEl (toggleMenu closedState) = closedState := by
  refine ⟨rfl, rfl, by simp [initializeMenu, fullMenuEnv],
    by simp [initializeMenu, fullMenuEnv], rfl, ?_, ?_⟩ <;> rfl

/-- C6: when the menu trigger or the drawer element is absent, initializeMenu
attaches no listeners and raises no error. -/
theorem menu_inert_without_trigger_or_drawer (env : MenuEnv)
    (h : env.menuTogglePresent = false ∨ env.sidebarPresent = false) :
    initializeMenu env = ([], none) := by
  rcases h with h | h <;> simp [initializeMenu, h]

/-- Witness for C6 at a page lacking the drawer element. -/
theorem menu_inert_without_trigger_or_drawer_witness :
    initializeMenu { fullMenuEnv with sidebarPresent := false } = ([], none) :=
  menu_inert_without_trigger_or_drawer _ (Or.inr rfl)

/-- C10: when the menu trigger and drawer are present but the close trigger
is absent, initializeMenu raises a TypeError after the toggle listener has
already been attached, leaving the controller partially wired. -/
theorem missing_close_btn_partial_wiring (env : MenuEnv)
    (h1 : env.menuTogglePresent = true) (h2 : env.sidebarPresent = true)
    (h3 : env.closeBtnPresent = false) :
    initializeMenu env = ([⟨.menuToggle, .toggleMenuHandler⟩], some .typeError) := by
  simp [initializeMenu, h1, h2, h3]

/-- Witness for C10 on a concrete page missing only the close trigger. -/
theorem missing_close_btn_partial_wiring_witness :
    initializeMenu { fullMenuEnv with closeBtnPresent := false }
      = ([⟨.menuToggle, .toggleMenuHandler⟩], some .typeError) :=
  missing_close_btn_partial_wiring _ rfl rfl rfl

/-! ## Deferred map initializer (src/script.js lines 43-58) -/

/-- Environment seen by initializeMap: whether the mapping-library global L
is defined, whether the element with id "map" exists (line 44), and whether
each construction step inside the try block (lines 47, 48-51, 53-54) raises. -/
structure MapEnv where
  leafletDefined : Bool
  mapContainerPresent : Bool
  mapCtorThrows : Bool
  tileLayerThrows : Bool
  markerThrows : Bool
deriving DecidableEq, Repr

/-- Observable side effects of initializeMap in order of occurrence. -/
inductive MapEffect
  | mapCreated
  | tileLayerAdded
  | markerAdded
  | popupOpened
deriving DecidableEq, Repr

/-- Outcome of one initializeMap call: the side effects performed, the
console warnings emitted, and the exception escaping the call, if any. -/
structure MapResult where
  effects : List MapEffect
  warnings : List String
  thrown : Option JsError
deriving DecidableEq, Repr

/-- The console.warn message prefix at line 56. -/
def mapWarnMsg : String := "Map initialization error:"

/-- initializeMap (lines 43-58): the guard at line 44 returns early when the
library global is undefined or the container is absent; otherwise the map,
tile layer and marker are built inside a try block whose catch logs a
warning and swallows the exception. A step that throws keeps the effects of
the steps already completed. -/
def initializeMap (env : MapEnv) : MapResult :=
  if !env.leafletDefined || !env.mapContainerPresent then
    { effects := [], warnings := [], thrown := none }
  else if env.mapCtorThrows then
    { effects := [], warnings := [mapWarnMsg], thrown := none }
  else if env.tileLayerThrows then
    { effects := [.mapCreated], warnings := [mapWarnMsg], thrown := none }
  else if env.markerThrows then
    { effects := [.mapCreated, .tileLayerAdded], warnings := [mapWarnMsg], thrown := none }
  else
    { effects := [.mapCreated, .tileLayerAdded, .markerAdded, .popupOpened],
      warnings := [], thrown := none }

/-- C3: when the mapping-library global is undefined or the map container is
absent, initializeMap returns with zero side effects, no warning, and no
error. -/
theorem map_inert_without_library_or_container (env : MapEnv)
    (h : env.leafletDefined = false ∨ env.mapContainerPresent = false) :
    initializeMap env = { effects := [], warnings := [], thrown := none } := by
  rcases h with h | h <;> simp [initializeMap, h]

/-- A page where the mapping library failed to load but the container exists. -/
def noLibraryEnv : MapEnv :=
  { leafletDefined := false, mapContainerPresent := true,
    mapCtorThrows := false, tileLayerThrows := false, markerThrows := false }

/-- A page where the guards pass but the tile-layer construction throws. -/
def tileThrowEnv : MapEnv :=
  { leafletDefined := true, mapContainerPresent := true,
    mapCtorThrows := false, tileLayerThrows := true, markerThrows := false }

/-- Witness for C3 with the library global undefined. -/
theorem map_inert_without_library_or_container_witness :
    initializeMap noLibraryEnv = { effects := [], warnings := [], thrown := none } :=
  map_inert_without_library_or_container noLibraryEnv (Or.inl rfl)

/-- C4: no exception ever crosses the initializeMap boundary, and whenever a
construction step throws while the guards pass, the exception is caught and
logged as exactly one warning. -/
theorem map_exceptions_caught_and_logged (env : MapEnv) :
    (initializeMap env).thrown = none
      ∧ (env.leafletDefined = true → env.mapContainerPresent = true →
          (env.mapCtorThrows || env.tileLayerThrows || env.markerThrows) = true →
          (initializeMap env).warnings = [mapWarnMsg]) := by
  constructor
  · simp only [initializeMap]
    split
    · rfl
    · split
      · rfl
      · split
        · rfl
        · split <;> rfl
  · intro h1 h2 h3
    simp only [initializeMap, h1, h2]
    cases hm : env.mapCtorThrows <;> cases ht : env.tileLayerThrows <;>
      cases hk : env.markerThrows <;> simp_all

/-- Witness for C4: the tile-layer construction throws and is swallowed. -/
theorem map_exceptions_caught_and_logged_witness :
    (initializeMap tileThrowEnv).thrown = none
      ∧ (initializeMap tileThrowEnv).warnings = [mapWarnMsg] :=
  ⟨(map_exceptions_caught_and_logged tileThrowEnv).1,
    (map_exceptions_caught_and_logged tileThrowEnv).2 rfl rfl rfl⟩

/-! ## Map-initialization scheduling (src/script.js lines 61-76) -/

/-- Lifecycle facts the scheduling code branches on: whether
document.readyState was "loading" at script evaluation (line 61), and the
value of document.hidden the moment the branch at line 65 runs. -/
structure PageEnv where
  readyStateLoading : Bool
  hiddenAtDecision : Bool
deriving DecidableEq, Repr

/-- A registered trigger for initializeMap: the one-shot visibilitychange
listener (lines 66-68, registered with the once option) or the 500ms
setTimeout (line 70 or 75). -/
inductive MapTrigger
  | visibilityOnce
  | timer500
deriving DecidableEq, Repr

/-- The scheduling decision of lines 61-76: in the "loading" branch the
choice between the one-shot visibility listener and the timer is made on
document.hidden inside the DOMContentLoaded callback; otherwise the timer
is registered directly at line 75. The result lists every trigger
registered for initializeMap. -/
def scheduleMapInit (env : PageEnv) : List MapTrigger :=
  if env.readyStateLoading then
    if env.hiddenAtDecision then [.visibilityOnce] else [.timer500]
  else [.timer500]

/-- Whether a registered trigger fires: the timer always fires; the one-shot
visibility listener fires exactly when a visibilitychange event later
occurs, and at most once because it is registered with the once option. -/
def triggerFires : MapTrigger → Bool → Bool
  | .timer500, _ => true
  | .visibilityOnce, visChangeOccurs => visChangeOccurs

/-- How many of the registered triggers fire, hence how many initializeMap
attempts the scheduling produces. -/
def firedCount (env : PageEnv) (visChangeOccurs : Bool) : Nat :=
  ((scheduleMapInit env).filter (fun t => triggerFires t visChangeOccurs)).length

/-- C5: exactly one trigger is registered per page load; in the loading and
hidden case it is only the visibility callback, in the visible case only
the 500ms timer; at most one trigger ever fires, so map creation is
attempted at most once, and exactly one fires provided any registered
visibility listener eventually sees a visibility change. -/
theorem map_scheduling_exactly_one_path (env : PageEnv) :
    (scheduleMapInit env).length = 1
      ∧ (env.readyStateLoading = true → env.hiddenAtDecision = true →
          scheduleMapInit env = [.visibilityOnce])
      ∧ (env.hiddenAtDecision = false → scheduleMapInit env = [.timer500])
      ∧ firedCount env true = 1
      ∧ firedCount env false ≤ 1 := by
  cases env with
  | mk rs hd => cases rs <;> cases hd <;> simp [scheduleMapInit, firedCount, triggerFires]

/-- Witness for C5 at a page that starts loading and hidden. -/
theorem map_scheduling_exactly_one_path_witness :
    scheduleMapInit { readyStateLoading := true, hiddenAtDecision := true }
        = [.visibilityOnce]
      ∧ firedCount { readyStateLoading := true, hiddenAtDecision := true } true = 1 :=
  ⟨(map_scheduling_exactly_one_path _).2.1 rfl rfl,
    (map_scheduling_exactly_one_path _).2.2.2.1⟩

/-! ## Load-timing reporter (src/script.js lines 79-101) -/

/-- The navigation-timing record fields the load listener reads
(lines 92-97). Durations are modelled at the integral granularity of the
host timestamps. -/
structure NavigationTiming where
  domainLookupStart : Int
  domainLookupEnd : Int
  connectStart : Int
  connectEnd : Int
  requestStart : Int
  responseStart : Int
  responseEnd : Int
  domLoading : Int
  domComplete : Int
  fetchStart : Int
  loadEventEnd : Int
deriving DecidableEq, Repr

/-- The performance report logged at lines 91-98: six labelled durations, in
source order, each a difference of two record fields. -/
def performanceMetrics (p : NavigationTiming) : List (String × Int) :=
  [("DNS", p.domainLookupEnd - p.domainLookupStart),
   ("TCP", p.connectEnd - p.connectStart),
   ("Request", p.responseStart - p.requestStart),
   ("Response", p.responseEnd - p.responseStart),
   ("DOM Processing", p.domComplete - p.domLoading),
   ("Total Load Time", p.loadEventEnd - p.fetchStart)]

/-- The body of the load listener (lines 89-99): perfData is the first entry
of the navigation-type entries; when there is none the report is skipped
(the guard at line 90), otherwise the report is emitted. -/
def onLoadReport (navEntries : List NavigationTiming) : Option (List (String × Int)) :=
  match navEntries with
  | [] => none
  | p :: _ => some (performanceMetrics p)

/-- The six duration fields as the spec states them, in the stated order:
DNS resolution, TCP connection, request, response, DOM processing, and
total load from fetch-start to load-event-end, each an exact pairwise
difference of record fields. -/
def specReportDurations (p : NavigationTiming) : List Int :=
  [p.domainLookupEnd - p.domainLookupStart,
   p.connectEnd - p.connectStart,
   p.responseStart - p.requestStart,
   p.responseEnd - p.responseStart,
   p.domComplete - p.domLoading,
   p.loadEventEnd - p.fetchStart]

/-- The six field labels in spec order, as the code writes them. -/
def specReportLabels : List String :=
  ["DNS", "TCP", "Request", "Response", "DOM Processing", "Total Load Time"]

/-- C7: for any navigation-timing record, the emitted report has exactly six
duration fields whose labels and values match the spec list in order, with
no reordering or renaming. -/
theorem report_six_pairwise_differences (p : NavigationTiming)
    (rest : List NavigationTiming) :
    (performanceMetrics p).length = 6
      ∧ (performanceMetrics p).map Prod.fst = specReportLabels
      ∧ (performanceMetrics p).map Prod.snd = specReportDurations p
      ∧ onLoadReport (p :: rest) = some (performanceMetrics p) := by
  refine ⟨rfl, rfl, rfl, rfl⟩

/-! ## Top-level script evaluation (src/script.js lines 1-110) -/

/-- Everything the whole script observes from the host page: the
feature-detected timing capabilities (lines 2, 79-83), the readiness and
visibility lifecycle facts, the drawer elements and link count, and whether
the element matching ".issue-report-btn" exists (line 106). -/
structure ScriptEnv where
  perfMarkCapability : Bool
  perfMeasureCapability : Bool
  readyStateLoading : Bool
  hiddenAtDOMContentLoaded : Bool
  menuTogglePresent : Bool
  sidebarPresent : Bool
  closeBtnPresent : Bool
  navLinkCount : Nat
  reportBtnPresent : Bool
deriving DecidableEq, Repr

/-- The drawer-relevant slice of the script environment. -/
def menuEnvOf (env : ScriptEnv) : MenuEnv :=
  { menuTogglePresent := env.menuTogglePresent, sidebarPresent := env.sidebarPresent,
    closeBtnPresent := env.closeBtnPresent, navLinkCount := env.navLinkCount }

/-- The lifecycle slice of the script environment. -/
def pageEnvOf (env : ScriptEnv) : PageEnv :=
  { readyStateLoading := env.readyStateLoading,
    hiddenAtDecision := env.hiddenAtDOMContentLoaded }

/-- Page state accumulated by top-level evaluation and later lifecycle
callbacks: the performance marks recorded, whether the DOMContentLoaded
listener was registered, the drawer listeners attached, the map triggers
registered, whether the load listener for the timing report was registered,
whether the redirect click listener was registered, an uncaught error
aborting top-level evaluation, and an uncaught error escaping a lifecycle
callback. -/
structure PageState where
  marks : List String
  dclListenerRegistered : Bool
  menuListeners : List Listener
  mapTriggers : List MapTrigger
  loadListenerRegistered : Bool
  redirectListenerRegistered : Bool
  uncaughtError : Option JsError
  callbackError : Option JsError
deriving DecidableEq, Repr

/-- Top-level script evaluation in statement order: the app-start mark
(lines 1-4); the readiness branch (lines 61-76), which in the "loading"
case only registers the DOMContentLoaded listener and otherwise runs
initializeMenu synchronously and registers the timer — an error thrown by
initializeMenu aborts evaluation there; the timing-report wiring guarded by
capability detection (lines 79-101); and last the redirect wiring
(lines 106-110), which raises a TypeError when the ".issue-report-btn"
element is absent. -/
def evalScript (env : ScriptEnv) : PageState :=
  let marks := if env.perfMarkCapability then ["app-start"] else []
  if env.readyStateLoading then
    let loadReg := env.perfMarkCapability && env.perfMeasureCapability
    if env.reportBtnPresent then
      { marks := marks, dclListenerRegistered := true, menuListeners := [],
        mapTriggers := [], loadListenerRegistered := loadReg,
        redirectListenerRegistered := true, uncaughtError := none, callbackError := none }
    else
      { marks := marks, dclListenerRegistered := true, menuListeners := [],
        mapTriggers := [], loadListenerRegistered := loadReg,
        redirectListenerRegistered := false, uncaughtError := some .typeError,
        callbackError := none }
  else
    match initializeMenu (menuEnvOf env) with
    | (ls, some e) =>
      { marks := marks, dclListenerRegistered := false, menuListeners := ls,
        mapTriggers := [], loadListenerRegistered := false,
        redirectListenerRegistered := false, uncaughtError := some e,
        callbackError := none }
    | (ls, none) =>
      let loadReg := env.perfMarkCapability && env.perfMeasureCapability
      if env.reportBtnPresent then
        { marks := marks, dclListenerRegistered := false, menuListeners := ls,
          mapTriggers := [.timer500], loadListenerRegistered := loadReg,
          redirectListenerRegistered := true, uncaughtError := none,
          callbackError := none }
      else
        { marks := marks, dclListenerRegistered := false, menuListeners := ls,
          mapTriggers := [.timer500], loadListenerRegistered := loadReg,
          redirectListenerRegistered := false, uncaughtError := some .typeError,
          callbackError := none }

/-- The DOMContentLoaded callback (lines 62-72), run by the browser after
top-level evaluation when the listener was registered: it runs
initializeMenu, then — only if that did not throw — registers the map
trigger chosen on document.hidden. An error escaping the callback is
recorded separately and does not undo earlier registrations. -/
def fireDOMContentLoaded (env : ScriptEnv) (st : PageState) : PageState :=
  if st.dclListenerRegistered then
    match initializeMenu (menuEnvOf env) with
    | (ls, some e) => { st with menuListeners := ls, callbackError := some e }
    | (ls, none) =>
      let trig : List MapTrigger :=
        if env.hiddenAtDOMContentLoaded then [.visibilityOnce] else [.timer500]
      { st with menuListeners := ls, mapTriggers := trig }
  else st

/-- Page initialization: top-level evaluation followed by the browser
delivering DOMContentLoaded. -/
def pageInit (env : ScriptEnv) : PageState :=
  fireDOMContentLoaded env (evalScript env)

/-- C8: when the redirect-trigger element is absent, the redirect wiring
raises an uncaught TypeError, yet the other three components are wired
exactly as on a page where it exists: the drawer listeners, the map-trigger
scheduling and the timing-report load listener all still take effect. The
close trigger is assumed present so the drawer controller itself wires
cleanly. -/
theorem redirect_absence_spares_other_components (env : ScriptEnv)
    (hr : env.reportBtnPresent = false) (hc : env.closeBtnPresent = true) :
    (pageInit env).uncaughtError = some .typeError
      ∧ (pageInit env).redirectListenerRegistered = false
      ∧ (pageInit env).menuListeners = (initializeMenu (menuEnvOf env)).1
      ∧ (pageInit env).mapTriggers = scheduleMapInit (pageEnvOf env)
      ∧ (pageInit env).loadListenerRegistered
          = (env.perfMarkCapability && env.perfMeasureCapability)
      ∧ (pageInit env).marks = (if env.perfMarkCapability then ["app-start"] else [])
      ∧ (pageInit env).callbackError = none := by
  have hmenu : (initializeMenu (menuEnvOf env)).2 = none := by
    simp only [initializeMenu, menuEnvOf, hc]
    split <;> simp
  cases hinit : initializeMenu (menuEnvOf env) with
  | mk ls err =>
    have herr : err = none := by
      have := hmenu
      rw [hinit] at this
      exact this
    subst herr
    cases hrs : env.readyStateLoading <;>
      cases hhd : env.hiddenAtDOMContentLoaded <;>
        simp [pageInit, evalScript, fireDOMContentLoaded, scheduleMapInit,
          pageEnvOf, hr, hrs, hhd, hinit]

/-- A concrete page lacking only the redirect trigger: loading readiness,
hidden start, all drawer elements present, full timing capability. -/
def noRedirectEnv : ScriptEnv :=
  { perfMarkCapability := true, perfMeasureCapability := true,
    readyStateLoading := true, hiddenAtDOMContentLoaded := true,
    menuTogglePresent := true, sidebarPresent := true, closeBtnPresent := true,
    navLinkCount := 5, reportBtnPresent := false }

/-- Witness for C8 on the concrete page above. -/
theorem redirect_absence_spares_other_components_witness :
    (pageInit noRedirectEnv).uncaughtError = some .typeError
      ∧ (pageInit noRedirectEnv).menuListeners
          = (initializeMenu (menuEnvOf noRedirectEnv)).1
      ∧ (pageInit noRedirectEnv).mapTriggers = scheduleMapInit (pageEnvOf noRedirectEnv)
      ∧ (pageInit noRedirectEnv).loadListenerRegistered = true :=
  ⟨(redirect_absence_spares_other_components noRedirectEnv rfl rfl).1,
    (redirect_absence_spares_other_components noRedirectEnv rfl rfl).2.2.1,
    (redirect_absence_spares_other_components noRedirectEnv rfl rfl).2.2.2.1,
    (redirect_absence_spares_other_components noRedirectEnv rfl rfl).2.2.2.2.1⟩

end Script
